import Mathlib

/-!
Verification of the `ontv` embedded log-structured key/value store
(`src/ontv/database.py`) against its natural-language specification.

The development shallowly embeds the database module: log lines are lists of
characters, files are lists of lines, the filesystem is a partial map from
paths to file contents, and every fallible Python operation is modelled in
the `Except String` monad.  The stdlib `json` codec (an external collaborator
of the module) is modelled for the payload shapes the store uses: null,
booleans and strings; `json_dump`/`json_load` from the source wrap it with
the empty-string/`None` conventions and the swallow-errors behaviour.
-/

set_option autoImplicit false

deriving instance DecidableEq for Except

namespace Ontv

/-- A single line of the on-disk log, as a list of characters. -/
abbrev Line := List Char

/-- The contents of one file: its lines (each line keeps its trailing
newline character, matching iteration over a Python file object). -/
abbrev FileContent := List Line

/-- Structured payloads carried by the store, the fragment of JSON-encodable
Python values the model covers: `None`, booleans and strings. -/
inductive JVal where
  | null
  | bool (b : Bool)
  | str (s : String)
deriving DecidableEq, Repr

/-- Whitespace recognised when trimming, matching `str.strip` / the JSON
inter-token whitespace the decoder tolerates. -/
def isWs (c : Char) : Bool :=
  c = ' ' || c = '\t' || c = '\n' || c = '\r'

/-- Strip whitespace from both ends of a character list (Python `strip`). -/
def trimL (l : Line) : Line :=
  ((l.dropWhile isWs).reverse.dropWhile isWs).reverse

/-- Split a character list at the first occurrence of `sep`:
`some (before, after)`, or `none` when `sep` does not occur.  Python
`split(sep, n)` is iterated from it. -/
def breakAtChar (sep : Char) : Line → Option (Line × Line)
  | [] => none
  | c :: rest =>
    if c = sep then some ([], rest)
    else
      match breakAtChar sep rest with
      | some (a, b) => some (c :: a, b)
      | none => none

/-- JSON escaping of one character inside a string literal (the escapes
`json.dumps` emits for the characters the model covers). -/
def escChar (c : Char) : Line :=
  if c = '"' then ['\\', '"']
  else if c = '\\' then ['\\', '\\']
  else if c = '\n' then ['\\', 'n']
  else if c = '\t' then ['\\', 't']
  else if c = '\r' then ['\\', 'r']
  else [c]

/-- JSON escaping of a whole string body. -/
def escStr : Line → Line
  | [] => []
  | c :: rest => escChar c ++ escStr rest

/-- The source's `json_dump`: `None` encodes to the empty string, other
values to their JSON text (`src/ontv/database.py:22`). -/
def jsonDumpL : JVal → Line
  | .null => []
  | .bool true => "true".data
  | .bool false => "false".data
  | .str s => '"' :: (escStr s.data ++ ['"'])

/-- Decode one escaped character after a backslash in a JSON string. -/
def unescChar (c : Char) : Option Char :=
  if c = '"' then some '"'
  else if c = '\\' then some '\\'
  else if c = '/' then some '/'
  else if c = 'n' then some '\n'
  else if c = 't' then some '\t'
  else if c = 'r' then some '\r'
  else if c = 'b' then some '\x08'
  else if c = 'f' then some '\x0c'
  else none

/-- Parse the body of a JSON string literal after the opening quote:
returns the decoded content and the remainder after the closing quote. -/
def parseStrBody : Line → Option (Line × Line)
  | [] => none
  | '"' :: rest => some ([], rest)
  | ['\\'] => none
  | '\\' :: e :: rest2 =>
    match unescChar e with
    | none => none
    | some u =>
      match parseStrBody rest2 with
      | none => none
      | some (s, r) => some (u :: s, r)
  | c :: rest =>
    match parseStrBody rest with
    | some (s, r) => some (c :: s, r)
    | none => none

/-- The source's `json_load`: empty input and any decode failure yield
`None`; otherwise the JSON text is decoded (`src/ontv/database.py:12`).
Surrounding whitespace is tolerated, as by `json.loads`. -/
def jsonLoadL (l : Line) : JVal :=
  let t := trimL l
  if t = [] then .null
  else if t = "null".data then .null
  else if t = "true".data then .bool true
  else if t = "false".data then .bool false
  else
    match t with
    | '"' :: rest =>
      match parseStrBody rest with
      | some (s, []) => .str ⟨s⟩
      | _ => .null
    | _ => .null

theorem breakAtChar_append (sep : Char) (a b : Line) (ha : sep ∉ a) :
    breakAtChar sep (a ++ sep :: b) = some (a, b) := by
  induction a with
  | nil => simp [breakAtChar]
  | cons c rest ih =>
    have hc : c ≠ sep := fun h => ha (h ▸ List.mem_cons_self c rest)
    have hrest : sep ∉ rest := fun h => ha (List.mem_cons_of_mem c h)
    simp [breakAtChar, hc, ih hrest]

theorem parseStrBody_escStr (s : Line) (r : Line) :
    parseStrBody (escStr s ++ '"' :: r) = some (s, r) := by
  induction s with
  | nil => simp [escStr, parseStrBody]
  | cons c rest ih =>
    by_cases h1 : c = '"'
    · subst h1; simp [escStr, escChar, parseStrBody, unescChar, ih]
    · by_cases h2 : c = '\\'
      · subst h2; simp [escStr, escChar, parseStrBody, unescChar, ih]
      · by_cases h3 : c = '\n'
        · subst h3; simp [escStr, escChar, parseStrBody, unescChar, ih]
        · by_cases h4 : c = '\t'
          · subst h4; simp [escStr, escChar, parseStrBody, unescChar, ih]
          · by_cases h5 : c = '\r'
            · subst h5; simp [escStr, escChar, parseStrBody, unescChar, ih]
            · simp [escStr, escChar, h1, h2, h3, h4, h5, parseStrBody, ih]

theorem trimL_wrap (a b : Char) (m : Line)
    (ha : isWs a = false) (hb : isWs b = false) :
    trimL (a :: m ++ [b]) = a :: m ++ [b] := by
  simp [trimL, List.dropWhile, ha, List.reverse_append, List.dropWhile_append,
    List.dropWhile_cons, hb]

theorem trimL_wrap_nl (a b : Char) (m : Line)
    (ha : isWs a = false) (hb : isWs b = false) :
    trimL (a :: m ++ [b, '\n']) = a :: m ++ [b] := by
  have hnl : isWs '\n' = true := rfl
  simp [trimL, List.dropWhile, ha, List.reverse_append, List.dropWhile_append,
    List.dropWhile_cons, hb, hnl]

theorem jsonLoadL_dump (v : JVal) : jsonLoadL (jsonDumpL v) = v := by
  cases v with
  | null => decide
  | bool b => cases b <;> decide
  | str s =>
    have hq : isWs '"' = false := by decide
    have ht : trimL ('"' :: (escStr s.data ++ ['"'])) =
        '"' :: (escStr s.data ++ ['"']) := by
      have := trimL_wrap '"' '"' (escStr s.data) hq hq
      simpa using this
    have hne1 : ('"' :: (escStr s.data ++ ['"'])) ≠ [] := by simp
    have hne2 : ('"' :: (escStr s.data ++ ['"'])) ≠ "null".data := by
      intro h; exact absurd (List.head_eq_of_cons_eq h) (by decide)
    have hne3 : ('"' :: (escStr s.data ++ ['"'])) ≠ "true".data := by
      intro h; exact absurd (List.head_eq_of_cons_eq h) (by decide)
    have hne4 : ('"' :: (escStr s.data ++ ['"'])) ≠ "false".data := by
      intro h; exact absurd (List.head_eq_of_cons_eq h) (by decide)
    have hbody : parseStrBody (escStr s.data ++ '"' :: []) =
        some (s.data, []) := parseStrBody_escStr s.data []
    simp only [jsonDumpL, jsonLoadL, ht, if_neg hne1, if_neg hne2,
      if_neg hne3, if_neg hne4]
    simpa using congrArg
      (fun o => match o with
        | some (s, []) => JVal.str ⟨s⟩
        | _ => JVal.null) hbody

theorem jsonLoadL_dump_nl (v : JVal) : jsonLoadL (jsonDumpL v ++ ['\n']) = v := by
  cases v with
  | null => decide
  | bool b => cases b <;> decide
  | str s =>
    have hq : isWs '"' = false := by decide
    have ht : trimL ('"' :: (escStr s.data ++ ['"']) ++ ['\n']) =
        '"' :: (escStr s.data ++ ['"']) := by
      have := trimL_wrap_nl '"' '"' (escStr s.data) hq hq
      simpa using this
    have hne1 : ('"' :: (escStr s.data ++ ['"'])) ≠ [] := by simp
    have hne2 : ('"' :: (escStr s.data ++ ['"'])) ≠ "null".data := by
      intro h; exact absurd (List.head_eq_of_cons_eq h) (by decide)
    have hne3 : ('"' :: (escStr s.data ++ ['"'])) ≠ "true".data := by
      intro h; exact absurd (List.head_eq_of_cons_eq h) (by decide)
    have hne4 : ('"' :: (escStr s.data ++ ['"'])) ≠ "false".data := by
      intro h; exact absurd (List.head_eq_of_cons_eq h) (by decide)
    have hbody : parseStrBody (escStr s.data ++ '"' :: []) =
        some (s.data, []) := parseStrBody_escStr s.data []
    simp only [jsonDumpL, jsonLoadL, ht, if_neg hne1, if_neg hne2,
      if_neg hne3, if_neg hne4]
    simpa using congrArg
      (fun o => match o with
        | some (s, []) => JVal.str ⟨s⟩
        | _ => JVal.null) hbody

section Dict

variable {κ α : Type} [DecidableEq κ]

/-- Python dict assignment on an association list: replace the binding in
place when the key exists, append otherwise. -/
def dset : List (κ × α) → κ → α → List (κ × α)
  | [], k, v => [(k, v)]
  | (k', v') :: t, k, v =>
    if k' = k then (k, v) :: t else (k', v') :: dset t k v

/-- Python `del d[key]`: `none` models the `KeyError` on a missing key. -/
def ddel : List (κ × α) → κ → Option (List (κ × α))
  | [], _ => none
  | (k', v') :: t, k =>
    if k' = k then some t
    else
      match ddel t k with
      | some r => some ((k', v') :: r)
      | none => none

/-- Python `d.get(key)` / `d[key]` lookup. -/
def dget : List (κ × α) → κ → Option α
  | [], _ => none
  | (k', v') :: t, k => if k' = k then some v' else dget t k

end Dict

/-- `DictStorage.VALUE`, the PUT tag (`src/ontv/database.py:220`). -/
def opPut : Line := "+".data

/-- `DictStorage.DELETION`, the DELETE tag (`src/ontv/database.py:223`). -/
def opDel : Line := "-".data

/-- `DictStorage.CLEAR`, the CLEAR tag (`src/ontv/database.py:226`). -/
def opClear : Line := "X".data

/-- V2 line assembly, `SPACE.join((op, key, value)) + DELIM`
(`V2Block.write_entry`, `src/ontv/database.py:124`). -/
def v2EntryLine (op key value : Line) : Line :=
  op ++ ' ' :: key ++ ' ' :: value ++ ['\n']

/-- `V2Block.write_entry`: key and value are dumped with `json_dump` before
the line is assembled. -/
def v2WriteEntry (op : Line) (key value : JVal) : Line :=
  v2EntryLine op (jsonDumpL key) (jsonDumpL value)

/-- `V2Block.load_entry` (`src/ontv/database.py:130`): `line.split(" ", 2)`;
fewer than three fields is an unpack `ValueError`. -/
def v2LoadEntry (line : Line) : Except String (Line × Line × Line) :=
  match breakAtChar ' ' line with
  | none => .error "ValueError: unpack"
  | some (op, r1) =>
    match breakAtChar ' ' r1 with
    | none => .error "ValueError: unpack"
    | some (key, value) => .ok (op, key, value)

/-- Value of one decimal digit, for Python `int` on the V1 length field. -/
def digitVal (c : Char) : Option Nat :=
  if c = '0' then some 0 else if c = '1' then some 1
  else if c = '2' then some 2 else if c = '3' then some 3
  else if c = '4' then some 4 else if c = '5' then some 5
  else if c = '6' then some 6 else if c = '7' then some 7
  else if c = '8' then some 8 else if c = '9' then some 9 else none

/-- Accumulating decimal parse. -/
def toNatAux : Nat → Line → Option Nat
  | acc, [] => some acc
  | acc, c :: r =>
    match digitVal c with
    | some d => toNatAux (acc * 10 + d) r
    | none => none

/-- Python `int` on a nonnegative decimal literal; `none` models the
`ValueError` on anything else. -/
def toNatL (l : Line) : Option Nat :=
  if l = [] then none else toNatAux 0 l

/-- Decimal rendering of a natural, Python `str(len(key))`. -/
def natDigitsL (n : Nat) : Line := (Nat.repr n).data

/-- `V1Block.write_entry` (`src/ontv/database.py:100`): the raw key is
length-prefixed and the value json-dumped. -/
def v1EntryLine (op key : Line) (value : JVal) : Line :=
  op ++ ' ' :: natDigitsL key.length ++ ' ' :: key ++ ' ' :: jsonDumpL value ++ ['\n']

/-- `V1Block.load_entry` (`src/ontv/database.py:107`): split twice, parse the
length field as an int (`ValueError` on failure), slice the key out of the
remainder, and take the value up to the trailing newline. -/
def v1LoadEntry (line : Line) : Except String (Line × Line × Line) :=
  match breakAtChar ' ' line with
  | none => .error "ValueError: unpack"
  | some (op, r1) =>
    match breakAtChar ' ' r1 with
    | none => .error "ValueError: unpack"
    | some (klStr, b) =>
      match toNatL klStr with
      | none => .error "ValueError: int"
      | some kl => .ok (op, b.take kl, (b.drop (kl + 1)).dropLast)

/-- The registered block format versions
(`FilesystemDriver.block_formats`, `src/ontv/database.py:157`); `v2` is the
`default_block`. -/
inductive BlockV where
  | v1
  | v2
deriving DecidableEq, Repr

/-- Entry decoding through a block format. -/
def loadEntryB : BlockV → Line → Except String (Line × Line × Line)
  | .v1 => v1LoadEntry
  | .v2 => v2LoadEntry

/-- `Block.load_item` through the per-codec key/value hooks
(`src/ontv/database.py:86`): V1 keeps the raw key (`load_key` is the
identity) and json-loads the value; V2 json-loads both. -/
def loadItemB : BlockV → Line × Line → JVal × JVal
  | .v1, (k, v) => (.str ⟨k⟩, jsonLoadL v)
  | .v2, (k, v) => (jsonLoadL k, jsonLoadL v)

/-- The header line the default block writes, `version=2.0` plus the
delimiter (`BaseBlock.write_header`, `src/ontv/database.py:90`). -/
def v2HeaderLine : Line := "version=2.0\n".data

/-- Python `split(" ")` with no limit. -/
def splitOnSpace : Line → List Line
  | [] => [[]]
  | c :: r =>
    if c = ' ' then [] :: splitOnSpace r
    else
      match splitOnSpace r with
      | h :: t => (c :: h) :: t
      | [] => [[c]]

/-- `StandardHeader.load_header` on a nonempty stripped line
(`src/ontv/database.py:68`): space-separated items, each split at its first
`=`; an item without `=` makes the `dict(...)` call raise.  Lookup takes the
first binding (header lines in practice bind each key once). -/
def loadHeaderPairs (s : Line) : Except String (List (Line × Line)) :=
  (splitOnSpace s).mapM fun item =>
    match breakAtChar '=' item with
    | some p => Except.ok p
    | none => Except.error "ValueError: dict"

/-- `FilesystemDriver.createyielder` (`src/ontv/database.py:193`): read the
header line, choose the block format named by its version (the default when
the file is empty, a fatal error when the version is unknown), and hand the
remaining lines to the yielder. -/
def createyielder (file : FileContent) : Except String (BlockV × FileContent) :=
  match file with
  | [] => .ok (.v2, [])
  | h :: rest =>
    let s := trimL h
    if s = [] then .error "TypeError: header is None"
    else
      match loadHeaderPairs s with
      | .error e => .error e
      | .ok pairs =>
        match dget pairs "version".data with
        | none => .error "KeyError: version"
        | some ver =>
          if ver = "1.0".data then .ok (.v1, rest)
          else if ver = "2.0".data then .ok (.v2, rest)
          else .error "unknown block format version"

/-- `DictStorageStats` (`src/ontv/database.py:7`). -/
structure DictStorageStats where
  clears : Nat
  deletions : Nat
  noops : Nat
deriving DecidableEq, Repr

/-- Accumulator of the `_read_cache` fold: the two counters plus the raw
(undecoded) dict. -/
structure ReadState where
  clears : Nat
  deletions : Nat
  data : List (Line × Line)
deriving DecidableEq, Repr

/-- One iteration of the `_read_cache` loop (`src/ontv/database.py:247`).
The tag tests happen in source order; a DELETE of an absent key is an
uncaught `KeyError`; an unknown tag is fatal. -/
def readStep (st : ReadState) (e : Line × Line × Line) : Except String ReadState :=
  let (op, key, _value) := e
  if op = opDel then
    match ddel st.data key with
    | none => .error ("KeyError: " ++ ⟨key⟩)
    | some d => .ok ⟨st.clears, st.deletions + 1, d⟩
  else if op = opClear then .ok ⟨st.clears + 1, st.deletions, []⟩
  else if op = opPut then .ok ⟨st.clears, st.deletions, dset st.data e.2.1 e.2.2⟩
  else .error ("unknown operation " ++ ⟨op⟩)

/-- The inner fold of `_read_cache` over already-decoded entries. -/
def replayEntries (es : List (Line × Line × Line)) : Except String ReadState :=
  es.foldlM readStep ⟨0, 0, []⟩

/-- Replay of the raw lines of a file through a block format: each line is
decoded by the block and folded; either failure aborts the replay. -/
def readLines (b : BlockV) (lines : FileContent) : Except String ReadState :=
  lines.foldlM (fun st line => (loadEntryB b line).bind (readStep st)) ⟨0, 0, []⟩

/-- `DictStorage.read`, that is `_read_cache` over `createyielder()`
(`src/ontv/database.py:233` and `:240`): the statistics (noops is
deletions plus clears) and the snapshot decoded through the block's
key/value hooks. -/
def readCache (file : FileContent) :
    Except String (DictStorageStats × List (JVal × JVal)) :=
  match createyielder file with
  | .error e => .error e
  | .ok (b, lines) =>
    match readLines b lines with
    | .error e => .error e
    | .ok st =>
      .ok (⟨st.clears, st.deletions, st.deletions + st.clears⟩,
        st.data.map (loadItemB b))

/-- The filesystem: a map from paths to file contents. -/
def Fs := String → Option FileContent

/-- Write a whole file at a path. -/
def fsSet (fs : Fs) (p : String) (c : FileContent) : Fs :=
  fun q => if q = p then some c else fs q

/-- Remove a path. -/
def fsDel (fs : Fs) (p : String) : Fs :=
  fun q => if q = p then none else fs q

/-- `os.rename`: atomic replace of `dst` by `src`; a missing source is a
fatal `OSError`. -/
def osRename (fs : Fs) (src dst : String) : Except String Fs :=
  match fs src with
  | none => .error "OSError: rename"
  | some c => .ok (fsSet (fsDel fs src) dst c)

/-- Split at the last slash: `some (head including that slash, tail)`. -/
def splitLastSlash : Line → Option (Line × Line)
  | [] => none
  | c :: r =>
    match splitLastSlash r with
    | some (b, a) => some (c :: b, a)
    | none => if c = '/' then some (['/'], r) else none

/-- `os.path.basename`. -/
def basenameL (p : Line) : Line :=
  match splitLastSlash p with
  | some (_, a) => a
  | none => p

/-- `os.path.dirname`: the part before the last slash, trailing slashes
stripped unless it is all slashes; empty when there is no slash. -/
def dirnameL (p : Line) : Line :=
  match splitLastSlash p with
  | none => []
  | some (h, _) =>
    if h.all (fun c => c = '/') then h
    else (h.reverse.dropWhile (fun c => c = '/')).reverse

/-- `os.path.join` as used for the side path (whose second component never
starts with a slash). -/
def pyJoin (a b : Line) : Line :=
  if a = [] then b
  else if a.getLast? = some '/' then a ++ b
  else a ++ '/' :: b

/-- The compaction side path `.<name>.compact` next to the store
(`FilesystemDriver.__init__`, `src/ontv/database.py:166`). -/
def compactPathL (p : Line) : Line :=
  pyJoin (dirnameL p) ('.' :: (basenameL p ++ ".compact".data))

/-- String form of the side path. -/
def compactPathS (p : String) : String := ⟨compactPathL p.data⟩

/-- The file `FilesystemDriver.compact` writes to the side path: the
default (V2) block's header plus one line per supplied entry
(`src/ontv/database.py:173`). -/
def compactFileContent (entries : List (Line × JVal × JVal)) : FileContent :=
  v2HeaderLine :: entries.map fun (op, k, v) => v2WriteEntry op k v

/-- `FilesystemDriver.compact`: write the entire side file, then atomically
rename it over the store path. -/
def driverCompact (fs : Fs) (path : String) (entries : List (Line × JVal × JVal)) :
    Except String Fs :=
  osRename (fsSet fs (compactPathS path) (compactFileContent entries))
    (compactPathS path) path

/-- The filesystem state while `FilesystemDriver.compact` is interrupted
after writing some portion of the side file but before the rename: the side
path holds arbitrary partial content, nothing else has been touched. -/
def interruptedCompact (fs : Fs) (path : String) (written : FileContent) : Fs :=
  fsSet fs (compactPathS path) written

/-- The content `FilesystemDriver.appendlog` leaves in the store file: the
current content, a header first when the file was empty, then each queued
entry written with the driver's own block, which is always the default
`V2Block` whatever version the on-disk header names
(`src/ontv/database.py:171` and `:182`). -/
def appendFile (cur : FileContent) (log : List (Line × JVal × JVal)) : FileContent :=
  (if cur = [] then [v2HeaderLine] else cur) ++
    log.map fun (op, k, v) => v2WriteEntry op k v

/-- `FilesystemDriver.appendlog`: an empty log is a no-op, otherwise the
file at the path grows by the encoded entries. -/
def appendlog (fs : Fs) (path : String) (log : List (Line × JVal × JVal)) : Fs :=
  if log = [] then fs
  else fsSet fs path (appendFile ((fs path).getD []) log)

/-- Number of positional parameters `DictStorage.clear` declares:
`def clear(self, key)` (`src/ontv/database.py:283`). -/
def dictStorageClearParams : Nat := 2

/-- Number of arguments in the bound call `self._storage.clear()` inside
`DictDB.clear` (`src/ontv/database.py:322`): only `self`. -/
def dictDbClearCallArgs : Nat := 1

/-- The in-memory side of one map-view session: the local snapshot dict and
the storage engine's pending operation queue (`DictStorage._log`). -/
structure DictDBState where
  dict : List (JVal × JVal)
  log : List (Line × JVal × JVal)
deriving DecidableEq, Repr

/-- `DictDB.__setitem__` (`src/ontv/database.py:307`): update the local
snapshot, then enqueue a PUT. -/
def dictDbSet (st : DictDBState) (k v : JVal) : DictDBState :=
  ⟨dset st.dict k v, st.log ++ [(opPut, k, v)]⟩

/-- `DictDB.__delitem__` (`src/ontv/database.py:311`): `dict.__delitem__`
raises `KeyError` on a missing key before anything is enqueued; otherwise
the key is removed and a DELETE enqueued. -/
def dictDbDel (st : DictDBState) (k : JVal) : Except String DictDBState :=
  match ddel st.dict k with
  | none => .error "KeyError: missing key"
  | some d => .ok ⟨d, st.log ++ [(opDel, k, JVal.null)]⟩

/-- `DictDB.clear` (`src/ontv/database.py:320`): `dict.clear(self)` empties
the local snapshot, then `self._storage.clear()` is called with one
argument while `DictStorage.clear` declares two, so the bound call raises
`TypeError` and no CLEAR entry is ever enqueued.  The matching-arity branch
carries the semantics the enqueue in `DictStorage.clear`
(`src/ontv/database.py:284`) would have. -/
def dictDbClear (st : DictDBState) : Except String DictDBState :=
  if dictDbClearCallArgs = dictStorageClearParams then
    .ok ⟨[], st.log ++ [(opClear, JVal.str "", JVal.null)]⟩
  else .error "TypeError: clear() takes exactly 2 arguments (1 given)"

/-- One logical mutation issued through the map view. -/
inductive ViewOp where
  | set (k v : JVal)
  | del (k : JVal)
  | clear
deriving DecidableEq, Repr

/-- Apply one map-view mutation. -/
def applyViewOp (st : DictDBState) : ViewOp → Except String DictDBState
  | .set k v => .ok (dictDbSet st k v)
  | .del k => dictDbDel st k
  | .clear => dictDbClear st

/-- Apply a sequence of mutations through the map view; a raise aborts the
sequence. -/
def runView (ops : List ViewOp) (st : DictDBState) : Except String DictDBState :=
  ops.foldlM applyViewOp st

/-- The in-memory side of one set-view session. -/
structure SetDBState where
  elems : List JVal
  log : List (Line × JVal × JVal)
deriving DecidableEq, Repr

/-- `SetDB.add` (`src/ontv/database.py:356`): a key already present returns
immediately (nothing enqueued); otherwise the key is added and a PUT with a
null value enqueued. -/
def setDbAdd (st : SetDBState) (k : JVal) : SetDBState :=
  if k ∈ st.elems then st
  else ⟨st.elems ++ [k], st.log ++ [(opPut, k, JVal.null)]⟩

/-- `SetDB.remove` (`src/ontv/database.py:363`): `set.remove` raises
`KeyError` on a missing key before anything is enqueued; otherwise the key
is removed and a DELETE enqueued. -/
def setDbRemove (st : SetDBState) (k : JVal) : Except String SetDBState :=
  if k ∈ st.elems then
    .ok ⟨st.elems.erase k, st.log ++ [(opDel, k, JVal.null)]⟩
  else .error "KeyError: missing key"

/-- One logical mutation issued through the set view. -/
inductive SetOp where
  | add (k : JVal)
  | rem (k : JVal)
deriving DecidableEq, Repr

/-- Apply a sequence of mutations through the set view. -/
def runSetOps (ops : List SetOp) (st : SetDBState) : Except String SetDBState :=
  ops.foldlM
    (fun s o =>
      match o with
      | .add k => .ok (setDbAdd s k)
      | .rem k => setDbRemove s k)
    st

/-- One open session's state as `DictDB.compact` sees it: the snapshot, the
storage statistics, the filesystem and the store path. -/
structure DBSession where
  dict : List (JVal × JVal)
  stats : DictStorageStats
  fs : Fs
  path : String

/-- `DictDB.compact` (`src/ontv/database.py:344`) through
`DictStorage.compact` (`src/ontv/database.py:286`): each item of the current
snapshot becomes one PUT, the driver rewrites the file, the statistics are
reset to zero, and the pre-compaction statistics are returned. -/
def dictDbCompact (s : DBSession) : Except String (DictStorageStats × DBSession) :=
  match driverCompact s.fs s.path (s.dict.map fun (k, v) => (opPut, k, v)) with
  | .error e => .error e
  | .ok fs' => .ok (s.stats, ⟨s.dict, ⟨0, 0, 0⟩, fs', s.path⟩)

/-- The default of the `compaction_limit` parameter of `open_database`
(`src/ontv/database.py:382`). -/
def compactionLimitDefault : Nat := 1000

/-- What `open_database` has produced when the view is handed to the
caller. -/
structure OpenResult where
  db : List (JVal × JVal)
  fs : Fs
  statsAtOpen : DictStorageStats
  stats : DictStorageStats
  compactCalls : Nat

/-- `open_database` (`src/ontv/database.py:379`) up to the `yield`: build
driver and storage, replay the file, and when the replayed noop count
strictly exceeds the limit call `db.compact()`; `compactCalls` counts the
number of compactions performed before the view is handed over. -/
def openDatabase (fs : Fs) (path : String) (limit : Nat) : Except String OpenResult :=
  match readCache ((fs path).getD []) with
  | .error e => .error e
  | .ok (stats0, cache) =>
    if limit < stats0.noops then
      match driverCompact fs path (cache.map fun (k, v) => (opPut, k, v)) with
      | .error e => .error e
      | .ok fs' => .ok ⟨cache, fs', stats0, ⟨0, 0, 0⟩, 1⟩
    else .ok ⟨cache, fs, stats0, stats0, 0⟩

/-- The attribute names bound by the class body of `FilesystemDriver`
(`src/ontv/database.py:156`): two class attributes and four methods; no
`db_size` is among them. -/
def filesystemDriverAttrs : List String :=
  ["block_formats", "default_block", "__init__", "compact", "appendlog",
    "createyielder"]

/-- Python attribute access on a driver instance: `AttributeError` when the
class body does not bind the name. -/
def driverGetAttr (name : String) : Except String String :=
  if name ∈ filesystemDriverAttrs then .ok name
  else .error ("AttributeError: " ++ name)

/-- `DictStorage.db_size` (`src/ontv/database.py:298`): delegate to
`self._driver.db_size()`; the attribute lookup fails, so the call can never
return a size. -/
def dictStorageDbSize : Except String Nat :=
  match driverGetAttr "db_size" with
  | .error e => .error e
  | .ok _ => .error "unreachable: FilesystemDriver defines no db_size body"

/-- `DictDB.db_size` (`src/ontv/database.py:347`): delegates to the storage
engine. -/
def dictDbDbSize : Except String Nat := dictStorageDbSize

/-- `SetDB.db_size` (`src/ontv/database.py:375`): delegates to the storage
engine. -/
def setDbDbSize : Except String Nat := dictStorageDbSize

theorem ddel_eq_none_iff {κ α : Type} [DecidableEq κ] (d : List (κ × α)) (k : κ) :
    ddel d k = none ↔ dget d k = none := by
  induction d with
  | nil => simp [ddel, dget]
  | cons p t ih =>
    obtain ⟨k', v'⟩ := p
    by_cases hk : k' = k
    · simp [ddel, dget, hk]
    · simp only [ddel, dget, if_neg hk]
      cases hdt : ddel t k with
      | none => simp [ih.mp hdt]
      | some r =>
        have hg : dget t k ≠ none := fun hgn => by
          rw [ih.mpr hgn] at hdt; cases hdt
        simp [hg]

theorem driverCompact_ok (fs : Fs) (p : String) (entries : List (Line × JVal × JVal)) :
    driverCompact fs p entries =
      .ok (fsSet (fsDel (fsSet fs (compactPathS p) (compactFileContent entries))
        (compactPathS p)) p (compactFileContent entries)) := by
  simp [driverCompact, osRename, fsSet]

/-- Claim C1: the spec's round trip covers every finite sequence of
set/delete/clear operations applied through the map view; on this code any
sequence containing a clear aborts instead, because `DictDB.clear` calls
`DictStorage.clear` with the wrong arity and raises `TypeError` (and logs
no CLEAR entry), so the round trip is impossible for those sequences.  The
remaining conjuncts show the clear-free part of such a sequence does
commit and reopen to exactly the reference mapping (string payloads stand
for the opaque values). -/
theorem claim1_round_trip_broken_by_clear :
    runView [ViewOp.set (JVal.str "a") (JVal.str "1"), ViewOp.clear] ⟨[], []⟩ =
      .error "TypeError: clear() takes exactly 2 arguments (1 given)" ∧
    runView [ViewOp.set (JVal.str "a") (JVal.str "1"),
        ViewOp.set (JVal.str "b") (JVal.str "2"), ViewOp.del (JVal.str "a")] ⟨[], []⟩ =
      .ok ⟨[(JVal.str "b", JVal.str "2")],
        [(opPut, JVal.str "a", JVal.str "1"), (opPut, JVal.str "b", JVal.str "2"),
          (opDel, JVal.str "a", JVal.null)]⟩ ∧
    readCache (appendFile []
        [(opPut, JVal.str "a", JVal.str "1"), (opPut, JVal.str "b", JVal.str "2"),
          (opDel, JVal.str "a", JVal.null)]) =
      .ok (⟨0, 1, 1⟩, [(JVal.str "b", JVal.str "2")]) := by
  refine ⟨by decide, by decide, by decide⟩

/-- Claim C2: the spec's concrete scenario set a, set b, delete a, clear,
set c cannot run on this code: it aborts at the `clear()` step with a
`TypeError` (wrong arity call into `DictStorage.clear`), so neither the
snapshot nor the no-op counts the claim predicts are ever produced. -/
theorem claim2_scenario_aborts_at_clear :
    runView [ViewOp.set (JVal.str "a") (JVal.str "1"),
      ViewOp.set (JVal.str "b") (JVal.str "2"), ViewOp.del (JVal.str "a"),
      ViewOp.clear, ViewOp.set (JVal.str "c") (JVal.str "3")] ⟨[], []⟩ =
      .error "TypeError: clear() takes exactly 2 arguments (1 given)" := by decide

/-- A store written with the version 1.0 codec: its header plus one V1 PUT
entry for key a. -/
def v1DemoFile : FileContent :=
  ["version=1.0\n".data, v1EntryLine opPut "a".data (JVal.str "1")]

/-- A filesystem holding the V1 store at path db. -/
def v1DemoFs : Fs := fun q => if q = "db" then some v1DemoFile else none

/-- Claim C3: committing to a store whose header names codec version 1.0 is
claimed to append entries in the store's original codec; instead
`appendlog` always writes with the driver's own default `V2Block`, so the
appended line is the V2 encoding, differs from the V1 encoding of the same
entry, and corrupts the store: the V1 file replayed fine before the append
and fails with a `ValueError` after it. -/
theorem claim3_append_ignores_original_codec :
    appendlog v1DemoFs "db" [(opPut, JVal.str "c", JVal.str "3")] "db" =
      some (v1DemoFile ++ ["+ \"c\" \"3\"\n".data]) ∧
    v1EntryLine opPut "c".data (JVal.str "3") = "+ 1 c \"3\"\n".data ∧
    ("+ \"c\" \"3\"\n".data : Line) ≠ v1EntryLine opPut "c".data (JVal.str "3") ∧
    readCache v1DemoFile = .ok (⟨0, 0, 0⟩, [(JVal.str "a", JVal.str "1")]) ∧
    readCache (v1DemoFile ++ ["+ \"c\" \"3\"\n".data]) = .error "ValueError: int" := by
  refine ⟨by decide, by decide, by decide, by decide, by decide⟩

/-- Claim C4: compaction writes the whole new file, the default-codec header
plus one PUT per live entry, at the dot-prefixed sibling side path, and
only then renames it over the store path (after which no side file is left
behind); interruption before the rename leaves the original file, and hence
the state seen on reopening, unchanged. -/
theorem claim4_compact_crash_atomicity (fs : Fs) (p : String)
    (entries : List (JVal × JVal)) (written : FileContent)
    (hp : compactPathS p ≠ p) :
    (driverCompact fs p (entries.map fun (k, v) => (opPut, k, v))).map
        (fun g => (g p, g (compactPathS p))) =
      .ok (some (compactFileContent (entries.map fun (k, v) => (opPut, k, v))), none) ∧
    interruptedCompact fs p written p = fs p ∧
    readCache ((interruptedCompact fs p written p).getD []) =
      readCache ((fs p).getD []) := by
  have hps : p ≠ compactPathS p := fun h => hp h.symm
  have hint : interruptedCompact fs p written p = fs p := by
    simp [interruptedCompact, fsSet, hps]
  refine ⟨?_, hint, by rw [hint]⟩
  rw [driverCompact_ok]
  simp [Except.map, fsSet, fsDel, hp, hps]

theorem claim4_compact_crash_atomicity_witness :
    (driverCompact (fun _ => none) "db"
        ([(JVal.str "c", JVal.str "3")].map fun (k, v) => (opPut, k, v))).map
        (fun g => (g "db", g (compactPathS "db"))) =
      .ok (some (compactFileContent
        ([(JVal.str "c", JVal.str "3")].map fun (k, v) => (opPut, k, v))), none) ∧
    interruptedCompact (fun _ => none) "db" [] "db" = (fun _ => none : Fs) "db" ∧
    readCache ((interruptedCompact (fun _ => none) "db" [] "db").getD []) =
      readCache (((fun _ => none : Fs) "db").getD []) :=
  claim4_compact_crash_atomicity (fun _ => none) "db"
    [(JVal.str "c", JVal.str "3")] [] (by decide)

/-- Claim C5: opening a store replays it, and exactly when the replayed
no-op count strictly exceeds the compaction limit (whose default is
`compactionLimitDefault`) one synchronous compaction is performed before
the view is handed over; when the count does not exceed the limit, none
is performed. -/
theorem claim5_auto_compaction_trigger (fs : Fs) (p : String) (limit : Nat)
    (stats0 : DictStorageStats) (cache : List (JVal × JVal))
    (h : readCache ((fs p).getD []) = .ok (stats0, cache)) :
    (limit < stats0.noops →
      (openDatabase fs p limit).map OpenResult.compactCalls = .ok 1) ∧
    (stats0.noops ≤ limit →
      (openDatabase fs p limit).map OpenResult.compactCalls = .ok 0) := by
  constructor
  · intro hlt
    simp [openDatabase, h, hlt, driverCompact_ok, Except.map]
  · intro hle
    have hnot : ¬limit < stats0.noops := not_lt.mpr hle
    simp [openDatabase, h, hnot, Except.map]

/-- The store used to exercise the auto-compaction trigger: one PUT, one
DELETE and one CLEAR, so the replayed no-op count is 2. -/
def noopsDemoFile : FileContent :=
  ["version=2.0\n".data, "+ \"a\" \"1\"\n".data, "- \"a\" \n".data,
    "X \"\" \n".data]

/-- A filesystem holding the no-op-heavy store at path db. -/
def noopsDemoFs : Fs := fun q => if q = "db" then some noopsDemoFile else none

theorem claim5_auto_compaction_trigger_witness :
    ((1 : Nat) < (2 : Nat) →
      (openDatabase noopsDemoFs "db" 1).map OpenResult.compactCalls = .ok 1) ∧
    ((2 : Nat) ≤ (1 : Nat) →
      (openDatabase noopsDemoFs "db" 1).map OpenResult.compactCalls = .ok 0) :=
  claim5_auto_compaction_trigger noopsDemoFs "db" 1 ⟨1, 1, 2⟩ [] (by decide)

/-- Claim C6 counterexample: on the set view, adding x twice and then
removing it twice in a row does not run to completion as the claim states:
the second remove raises `KeyError` (Python `set.remove`), refuting the
claim that a repeated remove does not raise. -/
theorem claim6_remove_twice_raises :
    runSetOps [SetOp.add (JVal.str "x"), SetOp.add (JVal.str "x"),
      SetOp.rem (JVal.str "x"), SetOp.rem (JVal.str "x")] ⟨[], []⟩ =
      .error "KeyError: missing key" := by decide

/-- Claim C6 as amended: adding x twice enqueues exactly one PUT entry, the
first remove enqueues exactly one DELETE, and removing a missing key
raises `KeyError` while enqueuing nothing; the raise-on-missing policy is
uniform across the views, the map view's delete raising `KeyError` on a
missing key as well. -/
theorem claim6_amended_delete_policy :
    runSetOps [SetOp.add (JVal.str "x"), SetOp.add (JVal.str "x")] ⟨[], []⟩ =
      .ok ⟨[JVal.str "x"], [(opPut, JVal.str "x", JVal.null)]⟩ ∧
    runSetOps [SetOp.add (JVal.str "x"), SetOp.add (JVal.str "x"),
        SetOp.rem (JVal.str "x")] ⟨[], []⟩ =
      .ok ⟨[], [(opPut, JVal.str "x", JVal.null),
        (opDel, JVal.str "x", JVal.null)]⟩ ∧
    (∀ (st : SetDBState) (k : JVal), k ∉ st.elems →
      setDbRemove st k = .error "KeyError: missing key") ∧
    (∀ (st : DictDBState) (k : JVal), dget st.dict k = none →
      dictDbDel st k = .error "KeyError: missing key") := by
  refine ⟨by decide, by decide, ?_, ?_⟩
  · intro st k h
    simp [setDbRemove, h]
  · intro st k h
    have hdd : ddel st.dict k = none := (ddel_eq_none_iff st.dict k).mpr h
    simp [dictDbDel, hdd]

theorem claim6_amended_delete_policy_witness :
    setDbRemove ⟨[], []⟩ (JVal.str "x") = .error "KeyError: missing key" ∧
    dictDbDel ⟨[], []⟩ (JVal.str "x") = .error "KeyError: missing key" :=
  ⟨claim6_amended_delete_policy.2.2.1 ⟨[], []⟩ (JVal.str "x") (by decide),
    claim6_amended_delete_policy.2.2.2 ⟨[], []⟩ (JVal.str "x") (by decide)⟩

/-- Claim C7: for every session state, compacting twice in a row leaves the
store file with exactly the content (hence exactly the key/value set) that
one compaction leaves, and the replay statistics are reset to zero after
each of the two compactions. -/
theorem claim7_compact_idempotent (s : DBSession) :
    ((dictDbCompact s).bind fun pr => dictDbCompact pr.2).map
        (fun pr => pr.2.fs pr.2.path) =
      (dictDbCompact s).map (fun pr => pr.2.fs pr.2.path) ∧
    (dictDbCompact s).map (fun pr => pr.2.stats) = .ok ⟨0, 0, 0⟩ ∧
    ((dictDbCompact s).bind fun pr => dictDbCompact pr.2).map
        (fun pr => pr.2.stats) = .ok ⟨0, 0, 0⟩ := by
  refine ⟨?_, ?_, ?_⟩ <;>
    simp [dictDbCompact, driverCompact_ok, Except.bind, Except.map, fsSet]

/-- Claim C9: replay is total only on logs whose DELETE entries always hit a
live key: whenever a replay containing a DELETE succeeds, the prefix before
that DELETE replays successfully to a state whose dict holds the key; and a
log that deletes a key cleared away, PUT a then CLEAR then DELETE a, aborts
the whole replay with the uncaught `KeyError`. -/
theorem claim9_replay_delete_needs_live_key :
    (∀ (front back : List (Line × Line × Line)) (k v : Line) (st : ReadState),
      replayEntries (front ++ (opDel, k, v) :: back) = .ok st →
      (replayEntries front).map (fun st0 => (dget st0.data k).isSome) = .ok true) ∧
    replayEntries [(opPut, "a".data, "1".data), (opClear, [], []),
        (opDel, "a".data, [])] =
      .error "KeyError: a" := by
  constructor
  · intro front back k v st h
    rw [replayEntries, List.foldlM_append] at h
    cases hf : List.foldlM readStep ⟨0, 0, []⟩ front with
    | error e =>
      rw [hf] at h
      simp [Bind.bind, Except.bind] at h
    | ok st0 =>
      rw [hf] at h
      have h' : List.foldlM readStep st0 ((opDel, k, v) :: back) = .ok st := by
        simpa [Bind.bind, Except.bind] using h
      rw [List.foldlM_cons] at h'
      cases hr : readStep st0 (opDel, k, v) with
      | error e =>
        rw [hr] at h'
        simp [Bind.bind, Except.bind] at h'
      | ok st1 =>
        have hsome : (dget st0.data k).isSome := by
          have hr' := hr
          simp only [readStep] at hr'
          cases hd : ddel st0.data k with
          | none => simp [hd] at hr'
          | some d =>
            have hne : ddel st0.data k ≠ none := by simp [hd]
            have : dget st0.data k ≠ none :=
              fun hg => hne ((ddel_eq_none_iff st0.data k).mpr hg)
            exact Option.isSome_iff_ne_none.mpr this
        rw [replayEntries, hf]
        simp [Except.map, hsome]
  · decide

theorem claim9_replay_delete_needs_live_key_witness :
    (replayEntries [(opPut, "a".data, "1".data)]).map
      (fun st0 => (dget st0.data "a".data).isSome) = .ok true :=
  claim9_replay_delete_needs_live_key.1 [(opPut, "a".data, "1".data)] []
    "a".data [] ⟨0, 1, []⟩ (by decide)

/-- Claim C10: for the version 2 codec, a line written by `write_entry` and
decoded by `load_entry` plus the codec's key/value hooks returns the
original triple whenever the JSON encoding of the key contains no space
character (the operation tags contain none); and at the string key a b,
whose encoding does contain a space, the space-delimited split misparses
the line, the decoded triple degrading to null key and null value. -/
theorem claim10_v2_entry_round_trip :
    (∀ (op : Line) (key value : JVal), ' ' ∉ op → ' ' ∉ jsonDumpL key →
      (v2LoadEntry (v2WriteEntry op key value)).map
          (fun t => (t.1, jsonLoadL t.2.1, jsonLoadL t.2.2)) =
        .ok (op, key, value)) ∧
    (v2LoadEntry (v2WriteEntry opPut (JVal.str "a b") (JVal.str "1"))).map
        (fun t => (t.1, jsonLoadL t.2.1, jsonLoadL t.2.2)) =
      .ok (opPut, JVal.null, JVal.null) ∧
    (opPut, JVal.null, JVal.null) ≠ (opPut, JVal.str "a b", JVal.str "1") := by
  refine ⟨?_, by decide, by decide⟩
  intro op key value hop hkey
  have hline : v2WriteEntry op key value =
      op ++ ' ' :: (jsonDumpL key ++ ' ' :: (jsonDumpL value ++ ['\n'])) := by
    simp [v2WriteEntry, v2EntryLine]
  rw [hline]
  rw [show (v2LoadEntry (op ++ ' ' :: (jsonDumpL key ++ ' ' ::
      (jsonDumpL value ++ ['\n'])))) = .ok (op, jsonDumpL key,
      jsonDumpL value ++ ['\n']) from by
    simp [v2LoadEntry, breakAtChar_append _ _ _ hop,
      breakAtChar_append _ _ _ hkey]]
  simp [Except.map, jsonLoadL_dump, jsonLoadL_dump_nl]

theorem claim10_v2_entry_round_trip_witness :
    (v2LoadEntry (v2WriteEntry opPut (JVal.str "k") (JVal.bool true))).map
        (fun t => (t.1, jsonLoadL t.2.1, jsonLoadL t.2.2)) =
      .ok (opPut, JVal.str "k", JVal.bool true) :=
  claim10_v2_entry_round_trip.1 opPut (JVal.str "k") (JVal.bool true)
    (by decide) (by decide)

/-- Claim C8: both views are claimed to resolve their size query into a byte
count through the storage engine and the log driver; the class body of
`FilesystemDriver` binds no `db_size` attribute, so on every open store the
delegation chain ends in an `AttributeError` instead of a byte count. -/
theorem claim8_db_size_attribute_error :
    "db_size" ∉ filesystemDriverAttrs ∧
    dictDbDbSize = .error "AttributeError: db_size" ∧
    setDbDbSize = .error "AttributeError: db_size" := by
  refine ⟨by decide, by decide, by decide⟩

end Ontv
